import Mathlib

/-!
Shallow embedding of `src/server.py` (wllcnm/mcp-mysql), centred on the
`call_tool` handler registered in `MySQLMCPServer.setup_tools`.

Modelling choices (all traced to the source):
* A `TextContent` mirrors `mcp.types.TextContent(type=..., text=...)`.
* A `Row` mirrors one dictionary produced by `conn.cursor(dictionary=True)`:
  an association list from column name to (stringified) cell value.
* The database driver is an oracle `DB`: `exec q` either fails with the
  driver's error text (a raised exception whose `str` is that text) or
  yields the fetched row list together with `cursor.rowcount`.
* `connOk : Bool` states whether `get_mysql_connection()` succeeds; when it
  fails the raised connector error escapes `call_tool` unhandled, because
  the acquisition happens before the `try` block (server.py lines 77-78).
  Creating the cursor on a fresh connection is treated as part of
  acquisition and cannot fail separately.
* Every observable database interaction is recorded in an `Event` trace:
  connection acquisition, each SQL statement handed to `cursor.execute`,
  each `conn.commit()`, and the `cursor.close()` / `conn.close()` pair run
  by the `finally` block.
* Python-level exceptions that escape `call_tool` are modelled by
  `Except.error : PyExc`, covering `KeyError` from `arguments[...]` on a
  missing key and the connector error from a failed connection attempt.
* `pyStrip` / `pyUpper` / `pyStartsWith` model `str.strip()` /
  `str.upper()` / `str.startswith(...)`; `pyStrip` removes the six ASCII
  whitespace characters Python strips, and `pyUpper` upcases ASCII letters
  (Python additionally upcases non-ASCII letters, which cannot occur in
  the keyword `SELECT` being tested).
-/

structure TextContent where
  type : String
  text : String
deriving Repr, DecidableEq

/-- One row of a dictionary cursor: column name paired with cell text. -/
abbrev Row := List (String × String)

/-- The database driver oracle: for a statement, either the driver's error
text (the statement raised) or the fetched rows plus `cursor.rowcount`. -/
structure DB where
  exec : String → Except String (List Row × Int)

/-- Observable resource and database events of one `call_tool` invocation. -/
inductive Event
  | connect
  | execute (q : String)
  | commit
  | closeCursor
  | closeConn
deriving Repr, DecidableEq

/-- Python exceptions that can escape `call_tool` to the transport layer. -/
inductive PyExc
  | connError
  | keyError (k : String)
deriving Repr, DecidableEq

instance {ε α : Type} [DecidableEq ε] [DecidableEq α] : DecidableEq (Except ε α) := fun a b =>
  match a, b with
  | Except.ok x, Except.ok y =>
    if h : x = y then Decidable.isTrue (by rw [h]) else
      Decidable.isFalse (fun hc => h (by cases hc; rfl))
  | Except.error x, Except.error y =>
    if h : x = y then Decidable.isTrue (by rw [h]) else
      Decidable.isFalse (fun hc => h (by cases hc; rfl))
  | Except.ok _, Except.error _ => Decidable.isFalse (fun hc => Except.noConfusion hc)
  | Except.error _, Except.ok _ => Decidable.isFalse (fun hc => Except.noConfusion hc)

/-- `arguments[k]` as a safe lookup; `none` means the dict access raises
`KeyError k`. -/
def getArg (args : List (String × String)) (k : String) : Option String :=
  (args.find? (fun p => p.1 == k)).map Prod.snd

/-- The whitespace characters removed by Python `str.strip()`. -/
def isPyWhite (c : Char) : Bool :=
  c == ' ' || c == '\t' || c == '\n' || c == '\x0d' || c == '\x0b' || c == '\x0c'

/-- Drop leading Python whitespace. -/
def dropLeadWhite : List Char → List Char
  | [] => []
  | c :: cs => if isPyWhite c then dropLeadWhite cs else c :: cs

/-- Python `str.strip()` on both ends. -/
def pyStrip (s : String) : String :=
  ⟨((dropLeadWhite ((dropLeadWhite s.data).reverse)).reverse)⟩

/-- Python `str.upper()` (ASCII letters; the SELECT test needs no more). -/
def pyUpper (s : String) : String := ⟨s.data.map Char.toUpper⟩

/-- Character-list prefix test. -/
def startsWithChars : List Char → List Char → Bool
  | _, [] => true
  | [], _ :: _ => false
  | c :: cs, d :: ds => c == d && startsWithChars cs ds

/-- Python `s.startswith(p)`. -/
def pyStartsWith (s p : String) : Bool := startsWithChars s.data p.data

/-- Python `repr` of one dictionary row, as printed by `str(results)`. -/
def pyReprRow (r : Row) : String :=
  "\x7b" ++ String.intercalate ", " (r.map (fun p => "'" ++ p.1 ++ "': '" ++ p.2 ++ "'")) ++ "\x7d"

/-- Python `str(results)` for the fetched row list (server.py line 89). -/
def pyReprRows (rs : List Row) : String :=
  "[" ++ String.intercalate ", " (rs.map pyReprRow) ++ "]"

/-- Literal returned for a SELECT with no rows (server.py line 88). -/
def noResultsMsg : String := "Query executed successfully. No results returned."

/-- Literal returned for a committed write (server.py line 92). -/
def affectedMsg (n : Int) : String :=
  "Query executed successfully. Affected rows: " ++ toString n

/-- Literal for a caught query failure (server.py line 94). -/
def queryErrMsg (e : String) : String := "Error executing query: " ++ e

/-- Literal for a caught SHOW TABLES failure (server.py line 103). -/
def listErrMsg (e : String) : String := "Error listing tables: " ++ e

/-- Literal for a caught DESCRIBE failure (server.py line 122). -/
def descErrMsg (e : String) : String := "Error describing table: " ++ e

/-- Literal for an unregistered tool name (server.py line 125). -/
def unknownToolMsg (name : String) : String := "Unknown tool: " ++ name

/-- `list(table.values())[0]` for each SHOW TABLES row: an empty dict makes
the subscript raise `IndexError`, caught by the surrounding `except`. -/
def firstValues : List Row → Except String (List String)
  | [] => Except.ok []
  | r :: rs =>
    match r with
    | [] => Except.error "list index out of range"
    | (_, v) :: _ => (firstValues rs).map (fun vs => v :: vs)

/-- `col[k]` on a DESCRIBE row: a missing key raises `KeyError`, whose
Python `str` is the quoted key, caught by the surrounding `except`. -/
def colGet (r : Row) (k : String) : Except String String :=
  match (r.find? (fun p => p.1 == k)).map Prod.snd with
  | some v => Except.ok v
  | none => Except.error ("'" ++ k ++ "'")

/-- One formatted line of the DESCRIBE output (server.py lines 110-117). -/
def describeLine (c : Row) : Except String String := do
  let f ← colGet c "Field"
  let t ← colGet c "Type"
  let nu ← colGet c "Null"
  let k ← colGet c "Key"
  let d ← colGet c "Default"
  let ex ← colGet c "Extra"
  Except.ok ("Field: " ++ f ++ ", Type: " ++ t ++ ", Null: " ++ nu ++
    ", Key: " ++ k ++ ", Default: " ++ d ++ ", Extra: " ++ ex)

/-- All formatted DESCRIBE lines, first raising `KeyError` wins. -/
def describeLines : List Row → Except String (List String)
  | [] => Except.ok []
  | c :: cs => do
    let l ← describeLine c
    let ls ← describeLines cs
    Except.ok (l :: ls)

/-- The body of `call_tool` between `try:` and `finally:` (server.py lines
80-125), given an already-acquired connection and cursor.  Returns the
reply (or the escaping Python exception) and the database events issued. -/
def callToolBody (db : DB) (name : String) (args : List (String × String)) :
    Except PyExc (List TextContent) × List Event :=
  if name == "execute_query" then
    match getArg args "query" with
    | none => (Except.error (PyExc.keyError "query"), [])
    | some query =>
      match db.exec query with
      | Except.error e =>
        (Except.ok [⟨"text", queryErrMsg e⟩], [Event.execute query])
      | Except.ok (rows, rowcount) =>
        if pyStartsWith (pyUpper (pyStrip query)) "SELECT" then
          if rows.isEmpty then
            (Except.ok [⟨"text", noResultsMsg⟩], [Event.execute query])
          else
            (Except.ok [⟨"text", pyReprRows rows⟩], [Event.execute query])
        else
          (Except.ok [⟨"text", affectedMsg rowcount⟩],
            [Event.execute query, Event.commit])
  else if name == "list_tables" then
    match db.exec "SHOW TABLES" with
    | Except.error e =>
      (Except.ok [⟨"text", listErrMsg e⟩], [Event.execute "SHOW TABLES"])
    | Except.ok (tables, _) =>
      match firstValues tables with
      | Except.error e =>
        (Except.ok [⟨"text", listErrMsg e⟩], [Event.execute "SHOW TABLES"])
      | Except.ok names =>
        (Except.ok [⟨"text", "Tables in database:\n" ++ String.intercalate ", " names⟩],
          [Event.execute "SHOW TABLES"])
  else if name == "describe_table" then
    match getArg args "table_name" with
    | none => (Except.error (PyExc.keyError "table_name"), [])
    | some tn =>
      match db.exec ("DESCRIBE " ++ tn) with
      | Except.error e =>
        (Except.ok [⟨"text", descErrMsg e⟩], [Event.execute ("DESCRIBE " ++ tn)])
      | Except.ok (cols, _) =>
        match describeLines cols with
        | Except.error e =>
          (Except.ok [⟨"text", descErrMsg e⟩], [Event.execute ("DESCRIBE " ++ tn)])
        | Except.ok lines =>
          (Except.ok [⟨"text",
              String.intercalate "\n" (("Table structure for " ++ tn ++ ":\n") :: lines)⟩],
            [Event.execute ("DESCRIBE " ++ tn)])
  else
    (Except.ok [⟨"text", unknownToolMsg name⟩], [])

/-- The full `call_tool` handler (server.py lines 75-129): connection and
cursor acquisition before the `try`, then the body, then the `finally`
block closing cursor and connection on every path — including paths on
which a Python exception is propagating. -/
def callTool (db : DB) (connOk : Bool) (name : String)
    (args : List (String × String)) :
    Except PyExc (List TextContent) × List Event :=
  if connOk then
    let body := callToolBody db name args
    (body.1, Event.connect :: body.2 ++ [Event.closeCursor, Event.closeConn])
  else
    (Except.error PyExc.connError, [])

/-- A driver that accepts every statement with an empty result set. -/
def dbAcceptEmpty : DB := ⟨fun _ => Except.ok ([], 0)⟩

/-- A driver that rejects every statement with a fixed error text. -/
def dbRejectAll : DB := ⟨fun _ => Except.error "1051 (42S02): Unknown table"⟩

example :
    callTool dbAcceptEmpty true "execute_query" [("query", "SELECT 1")] =
      (Except.ok [⟨"text", noResultsMsg⟩],
        [Event.connect, Event.execute "SELECT 1", Event.closeCursor, Event.closeConn]) := by decide

example :
    callTool dbAcceptEmpty true "execute_query" [("query", "DELETE FROM t")] =
      (Except.ok [⟨"text", affectedMsg 0⟩],
        [Event.connect, Event.execute "DELETE FROM t", Event.commit,
          Event.closeCursor, Event.closeConn]) := by decide

lemma body_event_mem (db : DB) (name : String) (args : List (String × String)) :
    ∀ e ∈ (callToolBody db name args).2, (∃ q, e = Event.execute q) ∨ e = Event.commit := by
  unfold callToolBody
  repeat' split
  all_goals intro e he
  all_goals simp_all
  all_goals rcases he with h | h <;> simp_all

lemma body_ok_shape (db : DB) (name : String) (args : List (String × String)) :
    ∀ r, (callToolBody db name args).1 = Except.ok r →
      ∃ s, r = [TextContent.mk "text" s] := by
  unfold callToolBody
  repeat' split
  all_goals intro r hr
  all_goals simp_all
  all_goals exact ⟨_, hr.symm⟩

lemma getArg_self (k v : String) : getArg [(k, v)] k = some v := by
  simp [getArg]

lemma callTool_true (db : DB) (name : String) (args : List (String × String)) :
    callTool db true name args =
      ((callToolBody db name args).1,
        Event.connect :: (callToolBody db name args).2 ++
          [Event.closeCursor, Event.closeConn]) := rfl

lemma callToolBody_execute_query (db : DB) (q : String) :
    callToolBody db "execute_query" [("query", q)] =
      match db.exec q with
      | Except.error e =>
        (Except.ok [⟨"text", queryErrMsg e⟩], [Event.execute q])
      | Except.ok (rows, rowcount) =>
        if pyStartsWith (pyUpper (pyStrip q)) "SELECT" then
          if rows.isEmpty then
            (Except.ok [⟨"text", noResultsMsg⟩], [Event.execute q])
          else
            (Except.ok [⟨"text", pyReprRows rows⟩], [Event.execute q])
        else
          (Except.ok [⟨"text", affectedMsg rowcount⟩],
            [Event.execute q, Event.commit]) := by
  unfold callToolBody
  simp [getArg_self]

lemma callToolBody_unknown (db : DB) (name : String) (args : List (String × String))
    (h1 : name ≠ "execute_query") (h2 : name ≠ "list_tables")
    (h3 : name ≠ "describe_table") :
    callToolBody db name args = (Except.ok [⟨"text", unknownToolMsg name⟩], []) := by
  unfold callToolBody
  simp [h1, h2, h3]

/-- C3: for every invocation — any tool name, any arguments, any driver
behaviour, whether or not the connection attempt succeeds — the number of
connection releases in the event trace equals the number of connection
acquisitions, and at most one connection is ever acquired: every handle
acquired is released exactly once, with no leak and no double-release. -/
theorem C3_connection_released_exactly_once (db : DB) (connOk : Bool) (name : String)
    (args : List (String × String)) :
    ((callTool db connOk name args).2.count Event.closeConn =
        (callTool db connOk name args).2.count Event.connect) ∧
      (callTool db connOk name args).2.count Event.connect ≤ 1 := by
  cases connOk with
  | false => simp [callTool]
  | true =>
    have h := body_event_mem db name args
    have hc : (callToolBody db name args).2.count Event.connect = 0 := by
      rw [List.count_eq_zero]
      intro hm
      rcases h _ hm with ⟨q, hq⟩ | hq <;> simp_all
    have hcc : (callToolBody db name args).2.count Event.closeConn = 0 := by
      rw [List.count_eq_zero]
      intro hm
      rcases h _ hm with ⟨q, hq⟩ | hq <;> simp_all
    rw [callTool_true]
    simp [List.count_cons, List.count_append, hc, hcc]

/-- C10: whenever `call_tool` returns normally (no Python exception
escapes), the returned value is a list holding exactly one content block,
and that block's kind is `text`. -/
theorem C10_single_text_block (db : DB) (connOk : Bool) (name : String)
    (args : List (String × String)) (r : List TextContent)
    (h : (callTool db connOk name args).1 = Except.ok r) :
    r.length = 1 ∧ ∀ tc ∈ r, tc.type = "text" := by
  cases connOk with
  | false => simp [callTool] at h
  | true =>
    have h2 : (callToolBody db name args).1 = Except.ok r := h
    rcases body_ok_shape db name args r h2 with ⟨s, hs⟩
    subst hs
    simp

theorem C10_single_text_block_witness :
    ([TextContent.mk "text" noResultsMsg] : List TextContent).length = 1 ∧
      ∀ tc ∈ [TextContent.mk "text" noResultsMsg], tc.type = "text" :=
  C10_single_text_block dbAcceptEmpty true "execute_query" [("query", "SELECT 1")]
    [TextContent.mk "text" noResultsMsg] (by decide)

/-- C9: in an `execute_query` invocation the transaction commit is issued
exactly when the statement executed without raising and its stripped,
upper-cased form does not start with `SELECT`; in particular a raising
execution commits nothing. -/
theorem C9_commit_iff_write_success (db : DB) (q : String) :
    Event.commit ∈ (callTool db true "execute_query" [("query", q)]).2 ↔
      ((db.exec q).isOk = true ∧
        pyStartsWith (pyUpper (pyStrip q)) "SELECT" = false) := by
  rw [callTool_true, callToolBody_execute_query]
  cases he : db.exec q with
  | error e => simp [Except.isOk, Except.toBool]
  | ok p =>
    cases p with
    | mk rows n =>
      by_cases hs : pyStartsWith (pyUpper (pyStrip q)) "SELECT" = true
      · by_cases hr : rows.isEmpty <;> simp [hs, hr, Except.isOk, Except.toBool]
      · simp [hs, Except.isOk, Except.toBool]
      

/-- C5: when the driver executes the statement without raising, the commit
is issued exactly when the stripped, upper-cased query does not start with
`SELECT` (the write classification of server.py line 86); for such a write
the reply is the success text reporting exactly the driver's affected-row
count `cursor.rowcount`. -/
theorem C5_write_classification_and_rowcount (db : DB) (q : String)
    (rows : List Row) (n : Int) (h : db.exec q = Except.ok (rows, n)) :
    (Event.commit ∈ (callTool db true "execute_query" [("query", q)]).2 ↔
      pyStartsWith (pyUpper (pyStrip q)) "SELECT" = false) ∧
    (pyStartsWith (pyUpper (pyStrip q)) "SELECT" = false →
      (callTool db true "execute_query" [("query", q)]).1 =
        Except.ok [⟨"text", affectedMsg n⟩]) := by
  rw [callTool_true, callToolBody_execute_query, h]
  by_cases hs : pyStartsWith (pyUpper (pyStrip q)) "SELECT" = true
  · by_cases hr : rows.isEmpty <;> simp [hs, hr]
  · simp [hs]

theorem C5_write_classification_and_rowcount_witness :
    (Event.commit ∈
        (callTool dbAcceptEmpty true "execute_query" [("query", "DELETE FROM t")]).2 ↔
      pyStartsWith (pyUpper (pyStrip "DELETE FROM t")) "SELECT" = false) ∧
    (pyStartsWith (pyUpper (pyStrip "DELETE FROM t")) "SELECT" = false →
      (callTool dbAcceptEmpty true "execute_query" [("query", "DELETE FROM t")]).1 =
        Except.ok [⟨"text", affectedMsg 0⟩]) :=
  C5_write_classification_and_rowcount dbAcceptEmpty "DELETE FROM t" [] 0 rfl

/-- C6: for a successfully executed SELECT-classified statement the reply
is Success: the fixed "No results returned." marker text when the fetched
row set is empty, and the formatted row set otherwise — never the error
branch text. -/
theorem C6_select_reply (db : DB) (q : String) (rows : List Row) (n : Int)
    (h : db.exec q = Except.ok (rows, n))
    (hs : pyStartsWith (pyUpper (pyStrip q)) "SELECT" = true) :
    (callTool db true "execute_query" [("query", q)]).1 =
      Except.ok [⟨"text", if rows.isEmpty then noResultsMsg else pyReprRows rows⟩] := by
  rw [callTool_true, callToolBody_execute_query, h]
  by_cases hr : rows.isEmpty <;> simp [hs, hr]

theorem C6_select_reply_witness :
    (callTool dbAcceptEmpty true "execute_query" [("query", "SELECT 1")]).1 =
      Except.ok [⟨"text",
        if ([] : List Row).isEmpty then noResultsMsg else pyReprRows []⟩] :=
  C6_select_reply dbAcceptEmpty "SELECT 1" [] 0 rfl (by decide)

/-- C8: when the driver rejects the statement with error text `e`, the
failure is caught inside `call_tool`: the invocation returns normally with
the single failure text `"Error executing query: " ++ e` (so the message
contains the driver text), and the trace shows the connection still being
released by the `finally` block. -/
theorem C8_execution_failure_caught (db : DB) (q : String) (e : String)
    (h : db.exec q = Except.error e) :
    callTool db true "execute_query" [("query", q)] =
      (Except.ok [⟨"text", queryErrMsg e⟩],
        [Event.connect, Event.execute q, Event.closeCursor, Event.closeConn]) := by
  rw [callTool_true, callToolBody_execute_query, h]
  rfl

theorem C8_execution_failure_caught_witness :
    callTool dbRejectAll true "execute_query" [("query", "DROP TABLE nonexistent")] =
      (Except.ok [⟨"text", queryErrMsg "1051 (42S02): Unknown table"⟩],
        [Event.connect, Event.execute "DROP TABLE nonexistent",
          Event.closeCursor, Event.closeConn]) :=
  C8_execution_failure_caught dbRejectAll "DROP TABLE nonexistent"
    "1051 (42S02): Unknown table" rfl

/-- C7 counterexample: a whitespace-only `query` is not rejected locally.
With a driver that accepts the statement, the handler sends `"   "` to the
database, classifies it as a write, commits, and replies with the success
text — no ValidationError, and the statement was sent. -/
theorem C7_counterexample :
    callTool dbAcceptEmpty true "execute_query" [("query", "   ")] =
      (Except.ok [⟨"text", affectedMsg 0⟩],
        [Event.connect, Event.execute "   ", Event.commit,
          Event.closeCursor, Event.closeConn]) := by decide

/-- C7 amended: `execute_query` performs no emptiness validation at all —
an empty or whitespace-only query is handed to `cursor.execute` unchanged
(the trace contains the execute event for the raw query). -/
theorem C7_empty_query_sent (db : DB) (q : String) (_h : pyStrip q = "") :
    Event.execute q ∈ (callTool db true "execute_query" [("query", q)]).2 := by
  rw [callTool_true, callToolBody_execute_query]
  cases he : db.exec q with
  | error e => simp
  | ok p =>
    cases p with
    | mk rows n =>
      by_cases hs : pyStartsWith (pyUpper (pyStrip q)) "SELECT" = true
      · by_cases hr : rows.isEmpty <;> simp [hs, hr]
      · simp [hs]

theorem C7_empty_query_sent_witness :
    Event.execute "" ∈ (callTool dbAcceptEmpty true "execute_query" [("query", "")]).2 :=
  C7_empty_query_sent dbAcceptEmpty "" (by decide)

lemma body_ok_unless_keyError (db : DB) (name : String) (args : List (String × String)) :
    (callToolBody db name args).1.isOk = true ∨
      (name = "execute_query" ∧ getArg args "query" = none) ∨
      (name = "describe_table" ∧ getArg args "table_name" = none) := by
  unfold callToolBody
  repeat' split
  all_goals simp_all [Except.isOk, Except.toBool]

/-- C2 counterexample: dispatch does let exceptions reach the transport
layer. Calling `execute_query` without the required `query` key raises
`KeyError` past `call_tool`, and a failed connection attempt propagates the
connector error (the connection is opened before the `try` block). -/
theorem C2_counterexample :
    (callTool dbAcceptEmpty true "execute_query" []).1 =
        Except.error (PyExc.keyError "query") ∧
      (callTool dbAcceptEmpty false "list_tables" []).1 =
        Except.error PyExc.connError := by decide

/-- C2 amended: once the connection is established and the invoked tool's
required argument key is present, no exception escapes `call_tool`: every
driver failure and every unknown tool name is converted into a normal text
reply. -/
theorem C2_no_escape_with_required_args (db : DB) (name : String)
    (args : List (String × String))
    (hq : name = "execute_query" → getArg args "query" ≠ none)
    (ht : name = "describe_table" → getArg args "table_name" ≠ none) :
    (callTool db true name args).1.isOk = true := by
  rcases body_ok_unless_keyError db name args with h | ⟨h1, h2⟩ | ⟨h1, h2⟩
  · exact h
  · exact absurd h2 (hq h1)
  · exact absurd h2 (ht h1)

theorem C2_no_escape_with_required_args_witness :
    (callTool dbRejectAll true "execute_query" [("query", "SELECT 1")]).1.isOk = true :=
  C2_no_escape_with_required_args dbRejectAll "execute_query" [("query", "SELECT 1")]
    (by decide) (by decide)

/-- C4 counterexample: dispatching the unregistered name `no_such_tool`
does acquire a database connection (the acquisition precedes the name
dispatch), and the reply text is `Unknown tool: no_such_tool`, capitalised
differently from the claimed `unknown tool: no_such_tool`. -/
theorem C4_counterexample :
    Event.connect ∈ (callTool dbAcceptEmpty true "no_such_tool" []).2 ∧
      (callTool dbAcceptEmpty true "no_such_tool" []).1 =
        Except.ok [⟨"text", "Unknown tool: no_such_tool"⟩] ∧
      (callTool dbAcceptEmpty true "no_such_tool" []).1 ≠
        Except.ok [⟨"text", "unknown tool: no_such_tool"⟩] := by decide

/-- C4 amended: for every name outside the three registered tools the
reply is `Unknown tool: <name>` and the trace is exactly connection
acquisition, cursor close, connection release: a connection is acquired
(and released) but no SQL statement is issued and nothing is committed. -/
theorem C4_unknown_tool_no_query (db : DB) (name : String)
    (args : List (String × String)) (h1 : name ≠ "execute_query")
    (h2 : name ≠ "list_tables") (h3 : name ≠ "describe_table") :
    callTool db true name args =
      (Except.ok [⟨"text", unknownToolMsg name⟩],
        [Event.connect, Event.closeCursor, Event.closeConn]) := by
  rw [callTool_true, callToolBody_unknown db name args h1 h2 h3]
  rfl

theorem C4_unknown_tool_no_query_witness :
    callTool dbAcceptEmpty true "bogus_tool" [] =
      (Except.ok [⟨"text", unknownToolMsg "bogus_tool"⟩],
        [Event.connect, Event.closeCursor, Event.closeConn]) :=
  C4_unknown_tool_no_query dbAcceptEmpty "bogus_tool" []
    (by decide) (by decide) (by decide)

/-- C1: contrary to the claim, `describe_table` performs no validation of
the table name. At the injection-shaped input `users; DROP TABLE x` the
handler interpolates the raw name into the metadata statement and issues
`DESCRIBE users; DROP TABLE x` against the database — one query sent, no
ValidationError reply. -/
theorem C1_no_validation_query_issued :
    callTool dbAcceptEmpty true "describe_table"
        [("table_name", "users; DROP TABLE x")] =
      (Except.ok [⟨"text", "Table structure for users; DROP TABLE x:\n"⟩],
        [Event.connect, Event.execute "DESCRIBE users; DROP TABLE x",
          Event.closeCursor, Event.closeConn]) := by decide
